import Mathlib

/-!
# ConnectHub — real-time chat core, shallow embedding

This file embeds the chat layer of the ConnectHub application (a Node.js /
Socket.IO / Mongoose / Redis codebase) into Lean 4 and proves the testable
properties stated in its specification.

Embedded source files:
* `src/models/Message.js`   — message schema, `getConversationId`, `markAsRead`,
  `deleteForUser`, the pre-save hook;
* `src/server.js`           — socket authentication middleware, connection /
  disconnect handlers, the `send:message` handler, the Redis recent-message
  cache (`lPush` / `lTrim 0 49` / `expire 3600`);
* `src/utils/autoReply.js`  — keyword categorization, reply templates, the
  auto-reply scheduler.

Identities (Mongo ObjectIds serialized by `.toString()`) are embedded as
`String`.  the JavaScript default array `sort` orders two strings by
lexicographic code-unit comparison, embedded by the executable `lexLe` on
the character lists.
The in-memory `Map` `onlineUsers` is embedded as an association list with
replace-on-set semantics.  Asynchronous failures (database outage, cache
outage) are oracles passed as `Bool` parameters; randomness
(`Math.random()`-derived indices and delays) is passed as `Nat` parameters
with the bounds the source guarantees as hypotheses.
-/

set_option autoImplicit false

namespace ConnectHub

/-- A stored message document (`messageSchema` in `src/models/Message.js`).
Timestamps are modelled as `Nat`. -/
structure MessageDoc where
  sender : String
  receiver : String
  content : String
  messageType : String
  isRead : Bool
  readAt : Option Nat
  isDeleted : Bool
  deletedBy : List String
  conversationId : String
  createdAt : Nat
deriving DecidableEq, Repr

/-- Lexicographic comparison of character lists: the order that the default
JavaScript string comparison (used by `Array.prototype.sort` without a
comparator) applies to the two id strings. -/
def lexLe : List Char → List Char → Bool
  | [], _ => true
  | _ :: _, [] => false
  | a :: as, b :: bs =>
      if a < b then true
      else if b < a then false
      else lexLe as bs

/-- JavaScript string comparison `a <= b`, embedded on the code points. -/
def strLe (a b : String) : Bool := lexLe a.data b.data

theorem lexLe_total (x : List Char) : ∀ y, lexLe x y = true ∨ lexLe y x = true := by
  induction x with
  | nil => intro y; exact Or.inl rfl
  | cons a as ih =>
      intro y
      cases y with
      | nil => exact Or.inr rfl
      | cons b bs =>
          rcases lt_trichotomy a b with h | h | h
          · left; simp [lexLe, h]
          · subst h
            rcases ih bs with h' | h'
            · left; simp [lexLe, lt_irrefl, h']
            · right; simp [lexLe, lt_irrefl, h']
          · right; simp [lexLe, h]

theorem lexLe_antisymm (x : List Char) :
    ∀ y, lexLe x y = true → lexLe y x = true → x = y := by
  induction x with
  | nil =>
      intro y h1 h2
      cases y with
      | nil => rfl
      | cons b bs => simp [lexLe] at h2
  | cons a as ih =>
      intro y h1 h2
      cases y with
      | nil => simp [lexLe] at h1
      | cons b bs =>
          rcases lt_trichotomy a b with h | h | h
          · simp [lexLe, h, asymm h] at h2
          · subst h
            simp only [lexLe, lt_irrefl, if_false] at h1 h2
            rw [ih bs h1 h2]
          · simp [lexLe, h, asymm h] at h1

/-- `messageSchema.statics.getConversationId` (src/models/Message.js:92-96):
sort the two id strings (JavaScript default sort) and join with an
underscore. -/
def getConversationId (user1Id user2Id : String) : String :=
  if strLe user1Id user2Id then user1Id ++ "_" ++ user2Id
  else user2Id ++ "_" ++ user1Id

/-- The two-element sort in `getConversationId` makes the result
order-independent (this holds even when the two ids coincide). -/
theorem getConversationId_comm (a b : String) :
    getConversationId a b = getConversationId b a := by
  unfold getConversationId
  cases hab : strLe a b <;> cases hba : strLe b a
  · rcases lexLe_total a.data b.data with h | h
    · exact absurd h (by simpa [strLe] using hab)
    · exact absurd h (by simpa [strLe] using hba)
  · simp
  · simp
  · have : a = b := String.ext (lexLe_antisymm a.data b.data hab hba)
    subst this
    simp

/-- C1: For all identities A and B with A ≠ B, the conversation identifier is
symmetric: `getConversationId A B = getConversationId B A`; it is produced by
sorting the two identity strings and joining them. -/
theorem conversationId_symmetric (a b : String) (h : a ≠ b) :
    getConversationId a b = getConversationId b a :=
  getConversationId_comm a b

/-- Witness for C1 at concrete distinct identities. -/
theorem conversationId_symmetric_witness :
    ("alice" : String) ≠ "bob" ∧
      getConversationId "alice" "bob" = getConversationId "bob" "alice" :=
  ⟨by decide, conversationId_symmetric "alice" "bob" (by decide)⟩

/-- Splitting at a separator character is unambiguous when neither left part
contains the separator. -/
theorem sep_split {l1 m1 : List Char} (l2 m2 : List Char)
    (h1 : '_' ∉ l1) (h2 : '_' ∉ m1)
    (h : l1 ++ '_' :: l2 = m1 ++ '_' :: m2) : l1 = m1 ∧ l2 = m2 := by
  induction l1 generalizing m1 with
  | nil =>
      cases m1 with
      | nil => exact ⟨rfl, by simpa using h⟩
      | cons y m1' =>
          simp only [List.nil_append, List.cons_append, List.cons.injEq] at h
          exact absurd (h.1 ▸ List.mem_cons_self y m1') h2
  | cons x l1' ih =>
      cases m1 with
      | nil =>
          simp only [List.cons_append, List.nil_append, List.cons.injEq] at h
          exact absurd (h.1 ▸ List.mem_cons_self x l1') h1
      | cons y m1' =>
          simp only [List.cons_append, List.cons.injEq] at h
          have h1' : '_' ∉ l1' := fun hm => h1 (List.mem_cons_of_mem x hm)
          have h2' : '_' ∉ m1' := fun hm => h2 (List.mem_cons_of_mem y hm)
          obtain ⟨he, ht⟩ := ih h1' h2' h.2
          exact ⟨by rw [h.1, he], ht⟩

/-- Joining two underscore-free identity strings with `"_"` is injective. -/
theorem underscore_join_inj {a c : String} (b d : String)
    (ha : '_' ∉ a.data) (hc : '_' ∉ c.data)
    (h : a ++ "_" ++ b = c ++ "_" ++ d) : a = c ∧ b = d := by
  have hdata : a.data ++ '_' :: b.data = c.data ++ '_' :: d.data := by
    have := congrArg String.data h
    simpa [String.data_append] using this
  obtain ⟨h1, h2⟩ := sep_split b.data d.data ha hc hdata
  exact ⟨String.ext h1, String.ext h2⟩

/-- C10: on underscore-free identities, `getConversationId` identifies exactly
the unordered pair of participants: two calls collide iff the unordered pairs
of arguments are equal. -/
theorem conversationId_injective (a b c d : String)
    (ha : '_' ∉ a.data) (hb : '_' ∉ b.data)
    (hc : '_' ∉ c.data) (hd : '_' ∉ d.data) :
    getConversationId a b = getConversationId c d ↔
      (a = c ∧ b = d) ∨ (a = d ∧ b = c) := by
  constructor
  · intro h
    unfold getConversationId at h
    split_ifs at h with hab hcd hcd
    · exact Or.inl (underscore_join_inj b d ha hc h)
    · exact Or.inr (underscore_join_inj b c ha hd h)
    · obtain ⟨h1, h2⟩ := underscore_join_inj a d hb hc h
      exact Or.inr ⟨h2, h1⟩
    · obtain ⟨h1, h2⟩ := underscore_join_inj a c hb hd h
      exact Or.inl ⟨h2, h1⟩
  · rintro (⟨h1, h2⟩ | ⟨h1, h2⟩)
    · rw [h1, h2]
    · rw [h1, h2, getConversationId_comm]

/-- Witness for C10 at concrete underscore-free identities. -/
theorem conversationId_injective_witness :
    ('_' ∉ ("ann" : String).data) ∧ ('_' ∉ ("bob" : String).data) ∧
    ('_' ∉ ("bo" : String).data) ∧ ('_' ∉ ("bann" : String).data) ∧
      (getConversationId "ann" "bob" = getConversationId "bo" "bann" ↔
        ("ann" = "bo" ∧ "bob" = "bann") ∨ ("ann" = "bann" ∧ "bob" = "bo")) :=
  ⟨by decide, by decide, by decide, by decide,
    conversationId_injective "ann" "bob" "bo" "bann"
      (by decide) (by decide) (by decide) (by decide)⟩

/-! ## Presence registry and gateway (src/server.js)

The in-memory `onlineUsers` JavaScript `Map` is embedded as an association
list: `set` replaces the value of an existing key, `delete` removes the
entry with the key, `get` returns the stored value. -/

/-- `Map.prototype.set`: insert or replace. -/
def mapSet {β : Type} : List (String × β) → String → β → List (String × β)
  | [], k, v => [(k, v)]
  | (k', v') :: rest, k, v =>
      if k' = k then (k, v) :: rest else (k', v') :: mapSet rest k v

/-- `Map.prototype.get`. -/
def mapGet {β : Type} : List (String × β) → String → Option β
  | [], _ => none
  | (k', v') :: rest, k => if k' = k then some v' else mapGet rest k

/-- `Map.prototype.delete`: removes the entry with the key (the stored value
is not consulted). -/
def mapDelete {β : Type} : List (String × β) → String → List (String × β)
  | [], _ => []
  | (k', v') :: rest, k => if k' = k then rest else (k', v') :: mapDelete rest k

/-- Redis `sAdd` on the `online_users` set. -/
def sAdd (s : List String) (x : String) : List String :=
  if x ∈ s then s else s ++ [x]

/-- Redis `sRem` on the `online_users` set. -/
def sRem (s : List String) (x : String) : List String :=
  s.filter (fun y => y ≠ x)

/-- Decoded token payload (`verifyAccessToken` result used in
`setupSocketAuth`, src/server.js:97-99). -/
structure TokenClaims where
  userId : String
  role : String
deriving DecidableEq, Repr

/-- An emitted Socket.IO event, by destination:
`toSender` is `socket.emit(...)` on the handling connection,
`toSocket sid` is `socketServer.to(sid).emit(...)`,
`broadcast` is `socketServer.emit(...)`. -/
inductive Emit where
  | toSender (event : String)
  | toSocket (socketId : String) (event : String)
  | broadcast (event : String)
deriving DecidableEq, Repr

/-- The mutable gateway state: the `onlineUsers` map (identity → socket
id), the Redis `online_users` set, and the joined rooms
(socket id → room name). -/
structure GatewayState where
  onlineUsers : List (String × String)
  redisOnline : List String
  rooms : List (String × String)
deriving DecidableEq, Repr

/-- The socket authentication middleware (`setupSocketAuth`,
src/server.js:87-108).  A missing or empty (falsy) token is refused before
verification; a token the verifier rejects is refused; otherwise the decoded
claims are attached to the socket. -/
def setupSocketAuth (verify : String → Option TokenClaims)
    (token : Option String) : Except String TokenClaims :=
  match token with
  | none => Except.error "Authentication error: No token provided"
  | some t =>
      if t.isEmpty then Except.error "Authentication error: No token provided"
      else
        match verify t with
        | some c => Except.ok c
        | none => Except.error "Authentication error: Invalid token"

/-- The `connection` handler body before event registration
(src/server.js:127-141): record the user in `onlineUsers`, add it to the
Redis set, join the private `user:<id>` room, broadcast `user:online`. -/
def connectionHandler (st : GatewayState) (userId socketId : String) :
    GatewayState × List Emit :=
  ({ onlineUsers := mapSet st.onlineUsers userId socketId,
     redisOnline := sAdd st.redisOnline userId,
     rooms := (socketId, "user:" ++ userId) :: st.rooms },
   [Emit.broadcast "user:online"])

/-- The `disconnect` handler (src/server.js:273-285).  Note that the source
deletes by `socket.userId` alone and never consults `socket.id`; the
`socketId` parameter records which connection is disconnecting but is
(faithfully) unused. -/
def disconnectHandler (st : GatewayState) (userId socketId : String) :
    GatewayState × List Emit :=
  ({ st with
      onlineUsers := mapDelete st.onlineUsers userId,
      redisOnline := sRem st.redisOnline userId },
   [Emit.broadcast "user:offline"])

/-- Outcome of a connection attempt: refused by the auth middleware (the
socket never reaches the `connection` handler) or admitted. -/
inductive ConnResult where
  | refused (msg : String)
  | connected
deriving DecidableEq, Repr

/-- A full connection attempt: the auth middleware runs first; only when it
passes does Socket.IO fire the `connection` handler. -/
def attemptConnection (st : GatewayState) (verify : String → Option TokenClaims)
    (token : Option String) (socketId : String) :
    GatewayState × List Emit × ConnResult :=
  match setupSocketAuth verify token with
  | Except.error e => (st, [], ConnResult.refused e)
  | Except.ok c =>
      let (st', emits) := connectionHandler st c.userId socketId
      (st', emits, ConnResult.connected)

/-- C3 (code_bug evaluation): identity `"u"` connects with socket `"s1"`,
reconnects with socket `"s2"` (replacing the handle), then the stale socket
`"s1"` disconnects.  The `disconnect` handler in the source deletes the map entry
by identity alone, so the lookup comes back absent — the second, still-open
still-open handle `"s2"` has been evicted, contradicting the claimed
invariant. -/
theorem stale_disconnect_evicts_current_handle :
    mapGet
      ((disconnectHandler
          ((connectionHandler
              ((connectionHandler ⟨[], [], []⟩ "u" "s1").1) "u" "s2").1)
        "u" "s1").1).onlineUsers "u" = none := by
  decide

/-- C7: a connection attempt whose credential is absent or rejected by the
verifier is refused with an authentication error: the gateway state is
untouched (no presence registration, no room join, no Redis write), nothing
is emitted (no online broadcast), and the connection is never admitted. -/
theorem auth_failure_refused_before_mutation
    (st : GatewayState) (verify : String → Option TokenClaims)
    (token : Option String) (socketId : String)
    (h : token = none ∨ ∃ t, token = some t ∧ verify t = none) :
    ∃ e, attemptConnection st verify token socketId =
      (st, [], ConnResult.refused e) := by
  rcases h with h | ⟨t, ht, hv⟩
  · subst h
    exact ⟨"Authentication error: No token provided", rfl⟩
  · subst ht
    by_cases he : t.isEmpty
    · exact ⟨"Authentication error: No token provided",
        by simp [attemptConnection, setupSocketAuth, he]⟩
    · exact ⟨"Authentication error: Invalid token",
        by simp [attemptConnection, setupSocketAuth, he, hv]⟩

/-- Witness for C7: a concrete rejected token against a verifier that
refuses everything. -/
theorem auth_failure_refused_before_mutation_witness :
    ((some "badtoken" : Option String) = none ∨
      ∃ t, (some "badtoken" : Option String) = some t ∧
        (fun (_ : String) => (none : Option TokenClaims)) t = none) ∧
    ∃ e, attemptConnection ⟨[("v", "s0")], ["v"], []⟩
        (fun _ => none) (some "badtoken") "s9" =
      (⟨[("v", "s0")], ["v"], []⟩, [], ConnResult.refused e) :=
  ⟨Or.inr ⟨"badtoken", rfl, rfl⟩,
    auth_failure_refused_before_mutation ⟨[("v", "s0")], ["v"], []⟩
      (fun _ => none) (some "badtoken") "s9"
      (Or.inr ⟨"badtoken", rfl, rfl⟩)⟩

/-! ## Conversation store and the send path (src/server.js:146-218,
src/models/Message.js) -/

/-- JavaScript truthiness of an optional string field: `undefined`/missing
and the empty string are falsy. -/
def jsTruthy : Option String → Bool
  | none => false
  | some s => !s.isEmpty

/-- The pre-save middleware (src/models/Message.js:218-224): when the
soft-delete array holds at least two entries, mark the document deleted.
This middleware runs on `Message.create`/`document.save()` only. -/
def preSaveHook (m : MessageDoc) : MessageDoc :=
  if 2 ≤ m.deletedBy.length then { m with isDeleted := true } else m

/-- `Message.create`: Mongoose applies the schema (`trim` on content, then
the `required`/`minlength`/`maxlength` validators), runs the save
middleware, and inserts the document.  `dbFails` is the infrastructure
oracle: a database outage makes the call reject, which the caller observes
as a thrown error. -/
def messageCreate (store : List MessageDoc) (doc : MessageDoc)
    (dbFails : Bool) : Except String (List MessageDoc × MessageDoc) :=
  if dbFails then Except.error "database unavailable"
  else
    let trimmed := doc.content.trim
    if trimmed.isEmpty then Except.error "Message content is required"
    else if 2000 < trimmed.length then
      Except.error "Message cannot exceed 2000 characters"
    else
      let stored := preSaveHook { doc with content := trimmed }
      Except.ok (store ++ [stored], stored)

/-- A Redis list holding the recent-message cache of one conversation
(`messages:<conversationId>`), with its remaining time-to-live. -/
structure CacheEntry where
  items : List MessageDoc
  ttl : Nat
deriving DecidableEq, Repr

/-- The cache write on the send path (src/server.js:204-212):
`lPush` (prepend), `lTrim key 0 49` (keep the first 50), `expire key 3600`
(refresh the ~1-hour expiry). -/
def cachePush (e : CacheEntry) (m : MessageDoc) : CacheEntry :=
  { items := (m :: e.items).take 50, ttl := 3600 }

/-- The payload of a `send:message` event; each field may be absent. -/
structure SendPayload where
  receiverId : Option String
  content : Option String
  messageType : Option String
deriving DecidableEq, Repr

/-- Result of handling one `send:message` event: the conversation store, the
per-conversation cache map, and the emitted events in order. -/
structure SendResult where
  store : List MessageDoc
  cache : List (String × CacheEntry)
  emits : List Emit
deriving DecidableEq, Repr

/-- The document handed to `Message.create` by the `send:message` handler
(src/server.js:159-166). -/
def sendMessageDoc (senderId : String) (d : SendPayload) (now : Nat) :
    MessageDoc :=
  { sender := senderId
    receiver := d.receiverId.getD ""
    content := d.content.getD ""
    messageType := if jsTruthy d.messageType then d.messageType.getD ""
                   else "text"  -- messageType falsy means "text"
    isRead := false
    readAt := none
    isDeleted := false
    deletedBy := []
    conversationId := getConversationId senderId (d.receiverId.getD "")
    createdAt := now }

/-- The receiver-delivery emit (src/server.js:172-189): `receive:message` to
the registered socket of the receiver when the presence lookup resolves, nothing
otherwise. -/
def deliverEvents (lookup : Option String) : List Emit :=
  match lookup with
  | some sid => [Emit.toSocket sid "receive:message"]
  | none => []

/-- The Redis cache update on the send path, keyed
`messages:<conversationId>` (src/server.js:204-212). -/
def cacheWrite (cache : List (String × CacheEntry)) (msg : MessageDoc) :
    List (String × CacheEntry) :=
  mapSet cache ("messages:" ++ msg.conversationId)
    (cachePush ((mapGet cache ("messages:" ++ msg.conversationId)).getD ⟨[], 0⟩)
      msg)

/-- The `send:message` handler (src/server.js:146-218).  Oracles:
`dbFails` (the `Message.create` call rejects), `populateFails` (the
`populate` call rejects — both are caught by the `catch` of the handler, which
emits `message:error`), `cacheFails` (any of the Redis calls rejects — caught
by the inner `catch`, which only logs). -/
def handleSendMessage (onlineUsers : List (String × String))
    (store : List MessageDoc) (cache : List (String × CacheEntry))
    (senderId : String) (d : SendPayload) (now : Nat)
    (dbFails populateFails cacheFails : Bool) : SendResult :=
  if !(jsTruthy d.receiverId && jsTruthy d.content) then
    -- `if (!receiverId || !content)` — validation failure, emit and return
    { store := store, cache := cache, emits := [Emit.toSender "message:error"] }
  else
    match messageCreate store (sendMessageDoc senderId d now) dbFails with
    | Except.error _ =>
        { store := store, cache := cache,
          emits := [Emit.toSender "message:error"] }
    | Except.ok (store', msg) =>
        if populateFails then
          { store := store', cache := cache,
            emits := [Emit.toSender "message:error"] }
        else
          { store := store',
            cache := if cacheFails then cache else cacheWrite cache msg,
            emits := deliverEvents (mapGet onlineUsers (d.receiverId.getD ""))
              ++ [Emit.toSender "message:sent"] }

/-- An acknowledgement event on the sending connection: `message:sent` or
`message:error` emitted via `socket.emit`. -/
def isSenderAck : Emit → Bool
  | Emit.toSender e => e == "message:sent" || e == "message:error"
  | _ => false

/-- C2: every handled `send:message` event emits exactly one acknowledgement
(`message:sent` or `message:error`) to the sending connection, for every
payload, receiver-presence situation, and database/populate/cache failure
combination. -/
theorem send_exactly_one_ack (onlineUsers : List (String × String))
    (store : List MessageDoc) (cache : List (String × CacheEntry))
    (senderId : String) (d : SendPayload) (now : Nat)
    (dbFails populateFails cacheFails : Bool) :
    ((handleSendMessage onlineUsers store cache senderId d now
        dbFails populateFails cacheFails).emits.filter isSenderAck).length
      = 1 := by
  unfold handleSendMessage
  repeat' split
  all_goals
    simp only [List.filter_append]
    first
    | rfl
    | (rcases mapGet onlineUsers (d.receiverId.getD "") with _ | sid <;> rfl)

/-- C4: a `send:message` whose payload is missing the receiver id, or whose
content is missing or empty, emits `message:error` to the sender and leaves
the conversation store (and cache) unchanged. -/
theorem invalid_send_rejected (onlineUsers : List (String × String))
    (store : List MessageDoc) (cache : List (String × CacheEntry))
    (senderId : String) (d : SendPayload) (now : Nat)
    (dbFails populateFails cacheFails : Bool)
    (h : jsTruthy d.receiverId = false ∨ jsTruthy d.content = false) :
    handleSendMessage onlineUsers store cache senderId d now
        dbFails populateFails cacheFails =
      { store := store, cache := cache,
        emits := [Emit.toSender "message:error"] } := by
  unfold handleSendMessage
  rcases h with h | h <;> rw [if_pos] <;> simp [h]

/-- Witness for C4: a payload with a receiver but empty content. -/
theorem invalid_send_rejected_witness :
    jsTruthy (SendPayload.mk (some "bob") (some "") none).content = false ∧
    handleSendMessage [] [] [] "alice"
        (SendPayload.mk (some "bob") (some "") none) 7 false false false =
      { store := [], cache := [], emits := [Emit.toSender "message:error"] } :=
  ⟨rfl,
    invalid_send_rejected [] [] [] "alice"
      (SendPayload.mk (some "bob") (some "") none) 7 false false false
      (Or.inr rfl)⟩

/-! ## Mark-as-read (src/models/Message.js:160-174) -/

/-- The per-document effect of the `updateMany` inside `markAsRead`: a message in the
conversation, addressed to the reader and still unread, gets
`isRead := true` and a read timestamp; every other document is untouched. -/
def markReadOne (conversationId userId : String) (now : Nat)
    (m : MessageDoc) : MessageDoc :=
  if m.conversationId = conversationId ∧ m.receiver = userId ∧
      m.isRead = false then
    { m with isRead := true, readAt := some now }
  else m

/-- `Message.markAsRead` (src/models/Message.js:160-174): bulk `updateMany`
over the store; `now` is the `new Date()` taken at call time. -/
def markAsRead (store : List MessageDoc) (conversationId userId : String)
    (now : Nat) : List MessageDoc :=
  store.map (markReadOne conversationId userId now)

/-- The unread count the conversation-listing aggregation computes for one
conversation (src/models/Message.js:135-146): messages of the conversation
addressed to the user with `isRead = false`. -/
def unreadCountInConversation (store : List MessageDoc)
    (conversationId userId : String) : Nat :=
  (store.filter fun m =>
    decide (m.conversationId = conversationId ∧ m.receiver = userId ∧
      m.isRead = false)).length

theorem markReadOne_markReadOne (c u : String) (t t' : Nat) (m : MessageDoc) :
    markReadOne c u t' (markReadOne c u t m) = markReadOne c u t m := by
  unfold markReadOne
  by_cases h : m.conversationId = c ∧ m.receiver = u ∧ m.isRead = false
  · rw [if_pos h, if_neg]
    simp
  · rw [if_neg h, if_neg h]

theorem markReadOne_not_unread (c u : String) (t : Nat) (m : MessageDoc) :
    decide ((markReadOne c u t m).conversationId = c ∧
      (markReadOne c u t m).receiver = u ∧
      (markReadOne c u t m).isRead = false) = false := by
  unfold markReadOne
  by_cases h : m.conversationId = c ∧ m.receiver = u ∧ m.isRead = false
  · rw [if_pos h]
    simp
  · rw [if_neg h]
    simpa using h

/-- C5: `markAsRead` is idempotent: after one call every message of the
conversation addressed to the reader is read (the per-conversation unread
count is 0), and a second call — even at a different timestamp — changes
nothing, read timestamps included. -/
theorem markAsRead_idempotent (store : List MessageDoc)
    (conversationId userId : String) (t t' : Nat) :
    unreadCountInConversation (markAsRead store conversationId userId t)
        conversationId userId = 0 ∧
    markAsRead (markAsRead store conversationId userId t)
        conversationId userId t' =
      markAsRead store conversationId userId t := by
  constructor
  · unfold unreadCountInConversation markAsRead
    rw [List.length_eq_zero, List.filter_eq_nil_iff]
    intro a ha
    rw [List.mem_map] at ha
    obtain ⟨m, _, rfl⟩ := ha
    simp [markReadOne_not_unread conversationId userId t m]
  · unfold markAsRead
    rw [List.map_map]
    exact List.map_congr_left fun m _ => markReadOne_markReadOne _ _ _ _ m

/-! ## Recent-message cache bound (src/server.js:204-212) -/

/-- Reading the cache entry of a conversation returns the Redis list contents. -/
def cacheGet (e : CacheEntry) : List MessageDoc := e.items

/-- A sequence of sends to the same conversation, applied to its cache entry
in order (each one `lPush` + `lTrim 0 49` + `expire 3600`). -/
def cachePushAll (e : CacheEntry) (ms : List MessageDoc) : CacheEntry :=
  ms.foldl cachePush e

theorem take_append_take (n : Nat) (a l : List MessageDoc) :
    (a ++ l.take n).take n = (a ++ l).take n := by
  rw [List.take_append_eq_append_take, List.take_append_eq_append_take,
    List.take_take, Nat.min_eq_left (Nat.sub_le n a.length)]

theorem cachePushAll_items (ms : List MessageDoc) :
    ∀ e : CacheEntry, ms ≠ [] →
      (cachePushAll e ms).items = (ms.reverse ++ e.items).take 50 := by
  induction ms with
  | nil => intro e h; exact absurd rfl h
  | cons m rest ih =>
      intro e _
      by_cases hr : rest = []
      · subst hr
        simp [cachePushAll, cachePush]
      · have step : cachePushAll e (m :: rest) = cachePushAll (cachePush e m) rest := rfl
        rw [step, ih (cachePush e m) hr]
        simp only [cachePush, List.reverse_cons, List.append_assoc,
          List.singleton_append]
        exact take_append_take 50 rest.reverse (m :: e.items)

/-- C6: after at least 50 pushes to the cache entry of one conversation, a `get`
returns exactly the 50 most recent messages, most-recent-first (and in
particular at most 50 entries), whatever the entry previously held; the
expiry has been refreshed to the full 3600 seconds. -/
theorem cache_bounded_most_recent_first (e : CacheEntry)
    (ms : List MessageDoc) (h : 50 ≤ ms.length) :
    cacheGet (cachePushAll e ms) = ms.reverse.take 50 ∧
    (cacheGet (cachePushAll e ms)).length ≤ 50 ∧
    (cachePushAll e ms).ttl = 3600 := by
  have hne : ms ≠ [] := by
    intro hcon
    rw [hcon] at h
    exact absurd h (by decide)
  have hitems : cacheGet (cachePushAll e ms) = ms.reverse.take 50 := by
    show (cachePushAll e ms).items = ms.reverse.take 50
    rw [cachePushAll_items ms e hne,
      List.take_append_of_le_length (by simpa using h)]
  refine ⟨hitems, ?_, ?_⟩
  · rw [hitems]
    exact (List.length_take 50 ms.reverse).le.trans (Nat.min_le_left _ _)
  · cases ms with
    | nil => exact absurd rfl hne
    | cons m rest =>
        have : ∀ ms' : List MessageDoc, ∀ e' : CacheEntry,
            (cachePushAll e' ms').ttl = 3600 ∨ (ms' = [] ∧ e'.ttl = (cachePushAll e' ms').ttl) := by
          intro ms'
          induction ms' with
          | nil => intro e'; exact Or.inr ⟨rfl, rfl⟩
          | cons x xs ih =>
              intro e'
              rcases ih (cachePush e' x) with h' | ⟨hnil, he⟩
              · exact Or.inl h'
              · subst hnil
                exact Or.inl (by simp [cachePushAll, cachePush])
        rcases this (m :: rest) e with h' | ⟨hnil, _⟩
        · exact h'
        · exact absurd hnil (by simp)

/-- A concrete message used by the evaluation witnesses below. -/
def sampleMsg : MessageDoc :=
  { sender := "alice"
    receiver := "bob"
    content := "hello there"
    messageType := "text"
    isRead := false
    readAt := none
    isDeleted := false
    deletedBy := []
    conversationId := getConversationId "alice" "bob"
    createdAt := 0 }

/-- Witness for C6: 50 pushes onto an entry that already holds an item. -/
theorem cache_bounded_most_recent_first_witness :
    50 ≤ (List.replicate 50 sampleMsg).length ∧
    (cacheGet (cachePushAll ⟨[sampleMsg], 17⟩ (List.replicate 50 sampleMsg)) =
        (List.replicate 50 sampleMsg).reverse.take 50 ∧
      (cacheGet (cachePushAll ⟨[sampleMsg], 17⟩
          (List.replicate 50 sampleMsg))).length ≤ 50 ∧
      (cachePushAll ⟨[sampleMsg], 17⟩ (List.replicate 50 sampleMsg)).ttl = 3600) :=
  ⟨by simp,
    cache_bounded_most_recent_first ⟨[sampleMsg], 17⟩
      (List.replicate 50 sampleMsg) (by simp)⟩

/-! ## Soft deletion (src/models/Message.js:179-186, 218-224)

`Message.deleteForUser` issues `findByIdAndUpdate` with `$addToSet`.  In
Mongoose, query updates such as `findByIdAndUpdate` execute directly in the
database and do **not** run document middleware: the pre-save hook of
lines 218-224 runs only on `document.save()` / `Message.create` (as embedded
in `messageCreate` above).  The embedding below therefore applies only the
`$addToSet` effect, which is what the database performs on this path. -/

/-- MongoDB `$addToSet`: append the value unless already present. -/
def addToSet (l : List String) (x : String) : List String :=
  if x ∈ l then l else l ++ [x]

/-- `Message.deleteForUser` (src/models/Message.js:179-186), restricted to
the targeted document: `findByIdAndUpdate(messageId, { $addToSet:
{ deletedBy: userId } })`.  No save middleware runs. -/
def deleteForUser (m : MessageDoc) (userId : String) : MessageDoc :=
  { m with deletedBy := addToSet m.deletedBy userId }

/-- C8 (code_bug evaluation): both participants of `sampleMsg` soft-delete
it via `deleteForUser`.  The soft-delete set then holds both participants,
yet `isDeleted` is still `false`: the pre-save hook that would set the
hard-deletion flag never runs on the `findByIdAndUpdate` path, and no other
code path re-saves a message after creation. -/
theorem both_parties_softdelete_not_flagged :
    ("alice" ∈ (deleteForUser (deleteForUser sampleMsg "alice") "bob").deletedBy
      ∧ "bob" ∈ (deleteForUser (deleteForUser sampleMsg "alice") "bob").deletedBy)
    ∧ (deleteForUser (deleteForUser sampleMsg "alice") "bob").isDeleted = false
    ∧ (preSaveHook
        (deleteForUser (deleteForUser sampleMsg "alice") "bob")).isDeleted
        = true := by
  decide

/-! ## Auto-responder (src/utils/autoReply.js)

The regexes in `categorizeMessage` are alternations of literal substrings
(the only metacharacter, `\?`, is an escaped literal), applied with the `i`
flag to the already-lowercased content: each test is embedded as "some
keyword of the list occurs as a substring of the lowercased content". -/

/-- JavaScript `toLowerCase`, applied character-wise. -/
def jsToLower (s : String) : String := ⟨s.data.map Char.toLower⟩

/-- Executable substring test: does `needle` occur contiguously in `hay`? -/
def isSubList (needle : List Char) : List Char → Bool
  | [] => needle.isEmpty
  | c :: rest => needle.isPrefixOf (c :: rest) || isSubList needle rest

theorem isSubList_iff (needle : List Char) : ∀ hay : List Char,
    isSubList needle hay = true ↔ needle <:+: hay := by
  intro hay
  induction hay with
  | nil =>
      simp [isSubList, List.isEmpty_iff, List.infix_nil]
  | cons c rest ih =>
      simp [isSubList, List.isPrefixOf_iff_prefix, ih, List.infix_cons_iff]

/-- Does any of the keyword literals occur in the (lowercased) content? -/
def matchesAny (lowerContent : String) (keywords : List String) : Bool :=
  keywords.any fun k => isSubList k.data lowerContent.data

def greetingKeywords : List String :=
  ["hi", "hello", "hey", "good morning", "good afternoon", "good evening",
   "sup", "what\x27s up"]

def questionKeywords : List String :=
  ["what", "why", "how", "when", "where", "who", "can you", "could you",
   "would you", "?"]

def workKeywords : List String :=
  ["work", "project", "team", "meeting", "deadline", "office", "colleague"]

def careerKeywords : List String :=
  ["job", "career", "opportunity", "position", "hiring", "interview",
   "resume", "skills"]

def technologyKeywords : List String :=
  ["tech", "code", "programming", "software", "developer", "app", "api",
   "database", "cloud", "ai", "ml"]

def appreciationKeywords : List String :=
  ["thank", "thanks", "appreciate", "grateful", "awesome", "great",
   "amazing", "wonderful"]

def closingKeywords : List String :=
  ["bye", "goodbye", "talk later", "catch up", "see you", "ttyl", "gotta go"]

/-- The topic buckets of `replyTemplates` (src/utils/autoReply.js:10-79). -/
inductive Category where
  | greetings
  | questions
  | workRelated
  | jobsCareer
  | technology
  | appreciation
  | closing
  | general
deriving DecidableEq, Repr

/-- The canned replies of each bucket (src/utils/autoReply.js:10-79). -/
def replyTemplates : Category → List String
  | Category.greetings =>
      ["Hey! How are you doing? 😊",
       "Hi there! Great to hear from you!",
       "Hello! Hope you\x27re having a good day!",
       "Hey! What\x27s up?",
       "Hi! Nice to connect with you!"]
  | Category.questions =>
      ["That\x27s a great question! Let me think about it...",
       "Interesting point! I\x27d say it depends on the context.",
       "Good question! In my experience, I\x27ve found that...",
       "That\x27s something I\x27ve been thinking about too!",
       "Great question! From what I know..."]
  | Category.workRelated =>
      ["Yeah, I\x27ve been working on some interesting projects lately.",
       "Work has been pretty busy but exciting!",
       "I\x27m currently focused on expanding my skills in that area.",
       "That\x27s exactly what I\x27ve been dealing with at work!",
       "I find that aspect of work really fascinating."]
  | Category.jobsCareer =>
      ["I\x27m always looking for new opportunities to grow!",
       "Career development is definitely a priority for me.",
       "I think networking is so important for career growth.",
       "That sounds like an interesting opportunity!",
       "I\x27d love to learn more about that field."]
  | Category.technology =>
      ["Technology is evolving so fast these days!",
       "I\x27ve been learning more about that tech stack recently.",
       "That\x27s a really powerful tool, I\x27ve used it on several projects.",
       "The tech industry is so exciting right now!",
       "I\x27m really interested in how that technology works."]
  | Category.appreciation =>
      ["Thanks so much! I really appreciate that! 🙏",
       "Thank you! That means a lot!",
       "I appreciate you saying that!",
       "Thanks! You\x27re too kind! 😊",
       "Thank you! Happy to help!"]
  | Category.closing =>
      ["It was great chatting with you! Let\x27s stay in touch.",
       "Thanks for the conversation! Talk soon! 👋",
       "Really enjoyed our chat! Catch up later?",
       "Let\x27s continue this conversation soon!",
       "Great talking to you! Have a wonderful day!"]
  | Category.general =>
      ["That\x27s really interesting! Tell me more.",
       "I totally understand what you mean.",
       "That makes a lot of sense!",
       "I hadn\x27t thought about it that way before.",
       "That\x27s a good point!",
       "I see what you\x27re saying.",
       "Absolutely! I agree with that.",
       "That\x27s fascinating! How did you get into that?",
       "I\x27d love to hear more about your experience with that.",
       "Thanks for sharing that perspective!"]

/-- `categorizeMessage` (src/utils/autoReply.js:84-124): the first matching
keyword family, in source order, decides the bucket; the default is
`general`. -/
def categorizeMessage (content : String) : Category :=
  let lowerContent := jsToLower content
  if matchesAny lowerContent greetingKeywords then Category.greetings
  else if matchesAny lowerContent questionKeywords then Category.questions
  else if matchesAny lowerContent workKeywords then Category.workRelated
  else if matchesAny lowerContent careerKeywords then Category.jobsCareer
  else if matchesAny lowerContent technologyKeywords then Category.technology
  else if matchesAny lowerContent appreciationKeywords then
    Category.appreciation
  else if matchesAny lowerContent closingKeywords then Category.closing
  else Category.general

/-- `generateReply` (src/utils/autoReply.js:129-134).  `randomIndex` stands
for `Math.floor(Math.random() * templates.length)`, which the source
guarantees to be below the bucket length. -/
def generateReply (messageContent : String) (randomIndex : Nat) : String :=
  (replyTemplates (categorizeMessage messageContent)).getD randomIndex ""

/-- A user account record, reduced to the email consulted by
`isSampleUser`. -/
structure User where
  email : String
deriving DecidableEq, Repr

/-- Executable suffix test. -/
def strEndsWith (hay needle : String) : Bool := needle.data.isSuffixOf hay.data

/-- `isSampleUser` (src/utils/autoReply.js:140-153): the account exists and
its email matches the reserved-namespace pattern `/@example\.com$/i`
(case-insensitive suffix). -/
def isSampleUser (users : String → Option User) (userId : String) : Bool :=
  match users userId with
  | none => false
  | some u => strEndsWith (jsToLower u.email) "@example.com"

/-- The scheduled work product of `processAutoReply`: the `setTimeout` delay
and the reply document handed to `Message.create`. -/
structure AutoReplyTask where
  delayMs : Nat
  reply : MessageDoc
deriving DecidableEq, Repr

/-- `processAutoReply` (src/utils/autoReply.js:159-197).  `lookupMsg` is the
result of `Message.findById`; `randDelay` stands for
`Math.floor(Math.random() * 3000)` (the source guarantees `< 3000`), so the
scheduled delay is `randDelay + 2000`; `randomIndex` is the bucket pick;
`now` is the insert time of the reply. -/
def processAutoReply (users : String → Option User)
    (lookupMsg : Option MessageDoc) (randDelay randomIndex now : Nat) :
    Option AutoReplyTask :=
  match lookupMsg with
  | none => none
  | some message =>
      if isSampleUser users message.receiver then
        some { delayMs := randDelay + 2000
               reply :=
                 { sender := message.receiver
                   receiver := message.sender
                   content := generateReply message.content randomIndex
                   messageType := "text"
                   isRead := false
                   readAt := none
                   isDeleted := false
                   deletedBy := []
                   conversationId :=
                     getConversationId message.receiver message.sender
                   createdAt := now } }
      else none

theorem processAutoReply_eq (users : String → Option User)
    (msg : MessageDoc) (randDelay randomIndex now : Nat) :
    processAutoReply users (some msg) randDelay randomIndex now =
      if isSampleUser users msg.receiver then
        some { delayMs := randDelay + 2000
               reply :=
                 { sender := msg.receiver
                   receiver := msg.sender
                   content := generateReply msg.content randomIndex
                   messageType := "text"
                   isRead := false
                   readAt := none
                   isDeleted := false
                   deletedBy := []
                   conversationId := getConversationId msg.receiver msg.sender
                   createdAt := now } }
      else none := rfl

theorem categorize_contains_hello (content : String)
    (h : "hello".data <:+: content.data) :
    categorizeMessage content = Category.greetings := by
  have hm : "hello".data.map Char.toLower <:+: content.data.map Char.toLower :=
    h.map Char.toLower
  have he : "hello".data.map Char.toLower = "hello".data := by decide
  rw [he] at hm
  have hsub : isSubList "hello".data (jsToLower content).data = true :=
    (isSubList_iff "hello".data (jsToLower content).data).mpr hm
  have hany : matchesAny (jsToLower content) greetingKeywords = true := by
    unfold matchesAny
    rw [List.any_eq_true]
    exact ⟨"hello", by decide, hsub⟩
  simp [categorizeMessage, hany]

/-- C9: a reply task is scheduled iff the receiver is a synthetic
(`@example.com`) account; when scheduled, the delay is in the 2–5 s window,
the reply is authored by the synthetic account back to the original sender
in the same conversation, and its content comes from the bucket the
deterministic keyword categorization assigns to the triggering text — in
particular a triggering text containing the substring `hello` draws from the
greetings bucket. -/
theorem autoReply_iff_synthetic (users : String → Option User)
    (msg : MessageDoc) (randDelay randomIndex now : Nat)
    (hDelay : randDelay < 3000)
    (hIdx : randomIndex <
      (replyTemplates (categorizeMessage msg.content)).length)
    (hCid : msg.conversationId = getConversationId msg.sender msg.receiver) :
    ((processAutoReply users (some msg) randDelay randomIndex now).isSome ↔
        isSampleUser users msg.receiver = true) ∧
    (∀ t, processAutoReply users (some msg) randDelay randomIndex now = some t →
        2000 ≤ t.delayMs ∧ t.delayMs < 5000 ∧
        t.reply.sender = msg.receiver ∧ t.reply.receiver = msg.sender ∧
        t.reply.conversationId = msg.conversationId ∧
        t.reply.content ∈ replyTemplates (categorizeMessage msg.content)) ∧
    ("hello".data <:+: msg.content.data →
        categorizeMessage msg.content = Category.greetings) := by
  refine ⟨?_, ?_, categorize_contains_hello msg.content⟩
  · rw [processAutoReply_eq]
    cases hs : isSampleUser users msg.receiver <;> simp [hs]
  · intro t ht
    rw [processAutoReply_eq] at ht
    cases hs : isSampleUser users msg.receiver <;> rw [hs] at ht
    · simp at ht
    · rw [if_pos rfl] at ht
      obtain rfl := Option.some.inj ht
      refine ⟨Nat.le_add_left 2000 randDelay,
        by show randDelay + 2000 < 5000; omega, rfl, rfl, ?_, ?_⟩
      · show getConversationId msg.receiver msg.sender = msg.conversationId
        rw [getConversationId_comm, ← hCid]
      · show generateReply msg.content randomIndex ∈
          replyTemplates (categorizeMessage msg.content)
        unfold generateReply
        rw [List.getD_eq_getElem _ _ hIdx]
        exact List.getElem_mem hIdx

/-- A lookup table under which every account is synthetic. -/
def sampleUsers : String → Option User :=
  fun _ => some { email := "priya.sharma@example.com" }

/-- Witness for C9: a concrete triggering message (content `"hello there"`)
to a synthetic receiver. -/
theorem autoReply_iff_synthetic_witness :
    (0 < 3000 ∧
      0 < (replyTemplates (categorizeMessage sampleMsg.content)).length ∧
      sampleMsg.conversationId =
        getConversationId sampleMsg.sender sampleMsg.receiver) ∧
    (((processAutoReply sampleUsers (some sampleMsg) 0 0 5).isSome ↔
        isSampleUser sampleUsers sampleMsg.receiver = true) ∧
      (∀ t, processAutoReply sampleUsers (some sampleMsg) 0 0 5 = some t →
          2000 ≤ t.delayMs ∧ t.delayMs < 5000 ∧
          t.reply.sender = sampleMsg.receiver ∧
          t.reply.receiver = sampleMsg.sender ∧
          t.reply.conversationId = sampleMsg.conversationId ∧
          t.reply.content ∈ replyTemplates (categorizeMessage sampleMsg.content)) ∧
      ("hello".data <:+: sampleMsg.content.data →
          categorizeMessage sampleMsg.content = Category.greetings)) :=
  ⟨⟨by decide, by decide, rfl⟩,
    autoReply_iff_synthetic sampleUsers sampleMsg 0 0 5
      (by decide) (by decide) rfl⟩

end ConnectHub
